import Mathlib

/-!
Verification of the weather MCP server (`src/mcp_server/handlers.py` and
`src/main.py`) against its natural-language specification.

The Python code is shallowly embedded: Python JSON values become the
inductive `Json` (with `Json.null` standing for Python `None`), the
parameter dictionaries passed to the HTTP layer become association lists
of `PValue`s, and the network is an explicit oracle function from the
request URL and parameters to an `HttpResult`.  Each Python function that
can raise returns an `Except String` value carrying the exception
message, together with the list of network calls it issued, so that
"no fetch attempted" is a statement about that trace.
-/

namespace McpServer

/-- Model of a parsed JSON value, also used for arbitrary Python values
flowing through the handlers (`Json.null` models Python `None`). -/
inductive Json where
  | null : Json
  | bool (b : Bool) : Json
  | num (n : Int) : Json
  | str (s : String) : Json
  | arr (xs : List Json) : Json
  | obj (fields : List (String × Json)) : Json

/-- Python truthiness of a JSON value: `None`, `False`, `0`, `""`, `[]`
and `{}` are falsy, everything else is truthy. -/
def Json.isTruthy : Json → Bool
  | .null => false
  | .bool b => b
  | .num n => n != 0
  | .str s => s != ""
  | .arr xs => !xs.isEmpty
  | .obj fs => !fs.isEmpty

/-- Rendering of a JSON value by a Python f-string (`str()`); only the
string case matters for the messages the handlers build. -/
def Json.render : Json → String
  | .null => "None"
  | .bool true => "True"
  | .bool false => "False"
  | .num n => toString n
  | .str s => s
  | .arr _ => "<list>"
  | .obj _ => "<dict>"

/-- Value of one entry of the parameter mapping handed to the HTTP
layer: Python `str`, `int` or `bool`.  The handlers are supposed to send
booleans only after converting them to the strings "yes"/"no"; keeping a
`bool` constructor lets us state that no boolean ever reaches the wire. -/
inductive PValue where
  | s (v : String) : PValue
  | i (v : Int) : PValue
  | b (v : Bool) : PValue
deriving Repr, DecidableEq

/-- True exactly on the boolean constructor of `PValue`. -/
def PValue.isBool : PValue → Bool
  | .b _ => true
  | _ => false

/-- Parameter mapping (a Python dict with string keys, insertion
ordered), modelled as an association list. -/
def Params := List (String × PValue)
deriving Repr, DecidableEq

/-- Python dict assignment `m[k] = v`: overwrite in place when the key
exists, append at the end otherwise. -/
def dictSet (m : List (String × PValue)) (k : String) (v : PValue) :
    List (String × PValue) :=
  if m.any (fun p => p.1 == k) then
    m.map (fun p => if p.1 = k then (k, v) else p)
  else
    m ++ [(k, v)]

/-- Python dict lookup `m.get(k)` on the parameter mapping: the value of
the first entry whose key is `k`, if any. -/
def getParam : List (String × PValue) → String → Option PValue
  | [], _ => none
  | p :: rest, k => if p.1 = k then some p.2 else getParam rest k

/-- Outcome of `client.get(url, params=params)` together with the body
parsing performed right after it: either an HTTP response (with status
code, the JSON body if `resp.json()` succeeds, and the raw text), or an
`httpx.RequestError` (transport failure), or any other exception raised
by the call. -/
inductive HttpResult where
  | response (statusCode : Nat) (jsonBody : Option Json) (text : String) : HttpResult
  | requestError (msg : String) : HttpResult
  | otherError (msg : String) : HttpResult

/-- Network oracle: what the transport layer does for a given URL and
parameter mapping. -/
def Net := String → List (String × PValue) → HttpResult

/-- One GET request issued to the network, as observed at the wire. -/
structure FetchCall where
  url : String
  params : List (String × PValue)
deriving Repr, DecidableEq

/-- Result of running `fetch`: the returned value or the exception
message, the network calls issued, and the caller's parameter dict as it
stands after the call (Python mutates it in place). -/
structure FetchOut where
  result : Except String Json
  calls : List FetchCall
  paramsAfter : List (String × PValue)

/-- Base URL prefix of `handlers.py`: `https://api.weatherapi.com/v1/`. -/
def baseUrl : String := "https://api.weatherapi.com/v1/"

/-- Embedding of `(data or \x7b\x7d).get("error", \x7b\x7d).get("message", resp.text)`
from `fetch`.  `data` is the Python value of the parsed body (`Json.null`
when parsing failed).  The computation can itself raise (an
`AttributeError` when a `.get` receives a non-dict); that path is an
`Except.error`. -/
def errorDetail (data : Json) (text : String) : Except String String :=
  let d0 := if data.isTruthy then data else Json.obj []
  match d0 with
  | .obj fs =>
      match (fs.lookup "error").getD (Json.obj []) with
      | .obj fs2 =>
          match fs2.lookup "message" with
          | some v => .ok v.render
          | none => .ok text
      | _ => .error "object has no attribute get"
  | _ => .error "object has no attribute get"

/-- Embedding of `fetch(endpoint, params)` from `handlers.py`.

The Python function raises `ValueError("Weather API key not set.")` when
the configured key is falsy (unset or empty), before touching `params`
or the network.  Otherwise it sets `params["key"]`, issues one GET, and:
on a transport error raises `ValueError("Request error: ...")`; on any
other exception escaping the try body — which includes the
`ValueError("WeatherAPI error: ...")` it itself raises for a non-200
status, since that raise happens inside the same `try` — raises
`ValueError("Unexpected error: ...")`; on a 200 it returns the parsed
body, which is Python `None` (`Json.null`) when the body did not parse. -/
def fetch (apiKey : Option String) (net : Net) (endpoint : String)
    (params : List (String × PValue)) : FetchOut :=
  match apiKey with
  | none => ⟨.error "Weather API key not set.", [], params⟩
  | some k =>
    if k = "" then ⟨.error "Weather API key not set.", [], params⟩
    else
      let params2 := dictSet params "key" (.s k)
      let url := baseUrl ++ endpoint
      let result : Except String Json :=
        match net url params2 with
        | .requestError m => .error ("Request error: " ++ m)
        | .otherError m => .error ("Unexpected error: " ++ m)
        | .response status body text =>
            let data : Json := body.getD .null
            if status ≠ 200 then
              match errorDetail data text with
              | .ok detail =>
                  .error ("Unexpected error: WeatherAPI error: " ++ detail)
              | .error m => .error ("Unexpected error: " ++ m)
            else
              .ok data
      ⟨result, [⟨url, params2⟩], params2⟩

/-- Result of running one tool function: the returned value or the
exception message, and the network calls issued. -/
structure ToolOut where
  result : Except String Json
  calls : List FetchCall

/-- Projection of a `fetch` outcome to a tool outcome (a tool that
returns the fetched value unchanged). -/
def FetchOut.toTool (f : FetchOut) : ToolOut := ⟨f.result, f.calls⟩

/-- Embedding of `get_current_weather(query, include_air_quality=False)`
from `handlers.py`: rejects an empty query, then delegates to `fetch`
on `current.json` with `q` and `aqi` ("yes"/"no"). -/
def get_current_weather (apiKey : Option String) (net : Net)
    (query : String) (include_air_quality : Bool := false) : ToolOut :=
  if query = "" then ⟨.error "query with location is required.", []⟩
  else
    (fetch apiKey net "current.json"
      [("q", .s query),
       ("aqi", .s (if include_air_quality then "yes" else "no"))]).toTool

/-- Embedding of
`get_weather_forecast(query, days=1, include_air_quality=False, include_alerts=False)`
from `handlers.py`: rejects an empty query, then rejects `days` outside
the inclusive range [1,3], then delegates to `fetch` on `forecast.json`
with `q`, `days`, `aqi` and `alerts`. -/
def get_weather_forecast (apiKey : Option String) (net : Net)
    (query : String) (days : Int := 1) (include_air_quality : Bool := false)
    (include_alerts : Bool := false) : ToolOut :=
  if query = "" then ⟨.error "query with location is required.", []⟩
  else if days < 1 ∨ days > 3 then
    ⟨.error "\x27days\x27 must be between 1 and 3.", []⟩
  else
    (fetch apiKey net "forecast.json"
      [("q", .s query),
       ("days", .i days),
       ("aqi", .s (if include_air_quality then "yes" else "no")),
       ("alerts", .s (if include_alerts then "yes" else "no"))]).toTool

/-- Embedding of `search_locations(query)` from `handlers.py`: rejects
an empty query, then fetches `search.json` with `q` and wraps the
returned value under the single key `items`. -/
def search_locations (apiKey : Option String) (net : Net)
    (query : String) : ToolOut :=
  if query = "" then ⟨.error "query with location is required.", []⟩
  else
    let f := fetch apiKey net "search.json" [("q", .s query)]
    match f.result with
    | .error m => ⟨.error m, f.calls⟩
    | .ok locations => ⟨.ok (Json.obj [("items", locations)]), f.calls⟩

/-- Identifier of one of the three tool functions defined in
`handlers.py`, so that the dispatch table can be a first-class value. -/
inductive ToolRef where
  | getCurrentWeather : ToolRef
  | getWeatherForecast : ToolRef
  | searchLocations : ToolRef
deriving Repr, DecidableEq

/-- Uniform keyword-argument record for invoking a tool through the
dispatch table: `query` plus the optional arguments with the defaults
of the Python signatures. -/
structure ToolArgs where
  query : String
  days : Int := 1
  include_air_quality : Bool := false
  include_alerts : Bool := false
deriving Repr, DecidableEq

/-- Interpretation of a `ToolRef` as the corresponding tool function of
`handlers.py`. -/
def ToolRef.run (r : ToolRef) (apiKey : Option String) (net : Net)
    (args : ToolArgs) : ToolOut :=
  match r with
  | .getCurrentWeather =>
      get_current_weather apiKey net args.query args.include_air_quality
  | .getWeatherForecast =>
      get_weather_forecast apiKey net args.query args.days
        args.include_air_quality args.include_alerts
  | .searchLocations => search_locations apiKey net args.query

/-- Embedding of the `TOOL_FUNCTIONS` dict at the bottom of
`handlers.py`: tool name to implementing function, in source order. -/
def TOOL_FUNCTIONS : List (String × ToolRef) :=
  [("get_weather", .getWeatherForecast),
   ("search_locations", .searchLocations)]

/-- Sample network that always answers 200 with an empty JSON object,
used to instantiate the theorems on concrete runs. -/
def demoNet : Net := fun _ _ => .response 200 (some (Json.obj [])) "ok"

/-- Sample network answering 403 with the body
`\x7b"error":\x7b"message":"Invalid key"\x7d\x7d`. -/
def net403 : Net := fun _ _ =>
  .response 403
    (some (Json.obj [("error", Json.obj [("message", Json.str "Invalid key")])]))
    "body403"

/-- Sample network answering 403 with a JSON body carrying no error
detail. -/
def net403NoDetail : Net := fun _ _ =>
  .response 403 (some (Json.obj [])) "raw text"

/-- Sample network failing at the transport layer. -/
def netTimeout : Net := fun _ _ => .requestError "timed out"

/-- Sample network answering 200 with a body that does not parse as
JSON. -/
def netBadBody : Net := fun _ _ => .response 200 none "not json"

/-- Sample network answering 200 with an empty JSON array body. -/
def netArr : Net := fun _ _ => .response 200 (some (Json.arr [])) "[]"

/-- Looking up the freshly assigned key after a dict assignment yields
the assigned value. -/
theorem dictSet_getParam_self (m : List (String × PValue)) (k : String)
    (v : PValue) : getParam (dictSet m k v) k = some v := by
  unfold dictSet
  split
  · rename_i hany
    induction m with
    | nil => simp at hany
    | cons p m ih =>
        obtain ⟨pk, pv⟩ := p
        by_cases hp : pk = k
        · subst hp
          simp [getParam]
        · have hpk : (pk == k) = false := by simp [hp]
          simp only [List.any_cons, hpk, Bool.false_or] at hany
          simpa [getParam, hp] using ih hany
  · rename_i hany
    induction m with
    | nil => simp [getParam]
    | cons p m ih =>
        obtain ⟨pk, pv⟩ := p
        simp only [List.any_cons, Bool.or_eq_true, not_or] at hany
        have hp : pk ≠ k := by simpa using hany.1
        simpa [getParam, hp] using ih (by simpa using hany.2)

/-- A dict assignment to one key leaves the lookup of every other key
unchanged. -/
theorem dictSet_getParam_ne (m : List (String × PValue)) (k : String)
    (v : PValue) (k2 : String) (hne : k2 ≠ k) :
    getParam (dictSet m k v) k2 = getParam m k2 := by
  unfold dictSet
  split
  · rename_i hany
    clear hany
    induction m with
    | nil => simp
    | cons p m ih =>
        obtain ⟨pk, pv⟩ := p
        by_cases hp : pk = k
        · subst hp
          simp [getParam, Ne.symm hne, ih]
        · by_cases hp2 : pk = k2
          · subst hp2
            simp [getParam, hp]
          · simp [getParam, hp, hp2, ih]
  · rename_i hany
    clear hany
    induction m with
    | nil => simp [getParam, Ne.symm hne]
    | cons p m ih =>
        obtain ⟨pk, pv⟩ := p
        by_cases hp2 : pk = k2 <;> simp [getParam, hp2, ih]

/-- Every entry of a dict after an assignment is either an original
entry or the assigned pair. -/
theorem dictSet_mem (m : List (String × PValue)) (k : String) (v : PValue)
    (kv : String × PValue) (h : kv ∈ dictSet m k v) :
    kv ∈ m ∨ kv = (k, v) := by
  unfold dictSet at h
  split at h
  · rcases List.mem_map.mp h with ⟨p, hp, hpe⟩
    by_cases hk : p.1 = k
    · right
      rw [if_pos hk] at hpe
      exact hpe.symm
    · left
      rw [if_neg hk] at hpe
      rw [← hpe]
      exact hp
  · rcases List.mem_append.mp h with h1 | h1
    · exact Or.inl h1
    · exact Or.inr (by simpa using h1)

/-- Two strings whose first characters differ are different strings. -/
theorem string_ne_of_head (s t : String)
    (h : s.data.head? ≠ t.data.head?) : s ≠ t := by
  intro he
  exact h (by rw [he])

/-- When every value of the parameter mapping handed to `fetch` is a
non-boolean, every parameter value on the wire is a non-boolean as well
(the injected API key is a string). -/
theorem fetch_calls_no_bool (apiKey : Option String) (net : Net)
    (endpoint : String) (params : List (String × PValue))
    (hparams : ∀ kv ∈ params, kv.2.isBool = false) :
    ∀ c ∈ (fetch apiKey net endpoint params).calls,
      ∀ kv ∈ c.params, kv.2.isBool = false := by
  intro c hc kv hkv
  cases apiKey with
  | none => simp [fetch] at hc
  | some k =>
    by_cases hk : k = ""
    · simp [fetch, hk] at hc
    · simp only [fetch, hk, if_neg, if_false, List.mem_singleton] at hc
      subst hc
      rcases dictSet_mem _ _ _ _ hkv with h | h
      · exact hparams kv h
      · rw [h]
        rfl

/-- Claim C1: with a non-empty query, `get_weather_forecast` rejects a
`days` value outside the inclusive range [1,3] with a validation error
and no fetch, accepts `days` values 1 through 3 by delegating to
`fetch` on `forecast.json`, and when `days` is omitted it defaults
to 1. -/
theorem forecast_days_validated (apiKey : Option String) (net : Net)
    (q : String) (days : Int) (iaq ial : Bool) (hq : q ≠ "") :
    ((days < 1 ∨ days > 3) →
      get_weather_forecast apiKey net q days iaq ial =
        ⟨.error "\x27days\x27 must be between 1 and 3.", []⟩) ∧
    (1 ≤ days → days ≤ 3 →
      get_weather_forecast apiKey net q days iaq ial =
        (fetch apiKey net "forecast.json"
          [("q", .s q), ("days", .i days),
           ("aqi", .s (if iaq then "yes" else "no")),
           ("alerts", .s (if ial then "yes" else "no"))]).toTool) ∧
    get_weather_forecast apiKey net q = get_weather_forecast apiKey net q 1 := by
  refine ⟨?_, ?_, rfl⟩
  · intro h
    simp [get_weather_forecast, hq, h]
  · intro h1 h3
    have hno : ¬(days < 1 ∨ days > 3) := by omega
    simp [get_weather_forecast, hq, hno]

/-- Witness for C1: the scenario `days = 5` with query "Tokyo" fails
validation with no fetch attempted. -/
theorem forecast_days_validated_witness :
    get_weather_forecast (some "KEY") demoNet "Tokyo" 5 false false =
      ⟨.error "\x27days\x27 must be between 1 and 3.", []⟩ :=
  (forecast_days_validated (some "KEY") demoNet "Tokyo" 5 false false
    (by decide)).1 (by decide)

/-- Claim C2: each of the three tool functions rejects an empty location
query with a validation error and performs no network call. -/
theorem empty_query_rejected (apiKey : Option String) (net : Net)
    (days : Int) (iaq ial : Bool) :
    get_current_weather apiKey net "" iaq =
      ⟨.error "query with location is required.", []⟩ ∧
    get_weather_forecast apiKey net "" days iaq ial =
      ⟨.error "query with location is required.", []⟩ ∧
    search_locations apiKey net "" =
      ⟨.error "query with location is required.", []⟩ := by
  refine ⟨?_, ?_, ?_⟩ <;>
    simp [get_current_weather, get_weather_forecast, search_locations]

/-- Claim C7: the dispatch table has exactly two entries, mapping
`get_weather` to `get_weather_forecast` and `search_locations` to
`search_locations`; no entry reaches `get_current_weather`. -/
theorem tool_functions_exactly_two :
    TOOL_FUNCTIONS.length = 2 ∧
    TOOL_FUNCTIONS.lookup "get_weather" = some ToolRef.getWeatherForecast ∧
    TOOL_FUNCTIONS.lookup "search_locations" = some ToolRef.searchLocations ∧
    (∀ p ∈ TOOL_FUNCTIONS, p.2 ≠ ToolRef.getCurrentWeather) ∧
    (∀ p ∈ TOOL_FUNCTIONS,
      p.1 = "get_weather" ∨ p.1 = "search_locations") ∧
    (∀ apiKey net args,
      ToolRef.run ToolRef.getWeatherForecast apiKey net args =
        get_weather_forecast apiKey net args.query args.days
          args.include_air_quality args.include_alerts) ∧
    (∀ apiKey net args,
      ToolRef.run ToolRef.searchLocations apiKey net args =
        search_locations apiKey net args.query) :=
  ⟨by decide, by decide, by decide, by decide, by decide,
    fun _ _ _ => rfl, fun _ _ _ => rfl⟩

/-- Claim C3: the boolean flags of `get_current_weather` and
`get_weather_forecast` appear in the parameter mapping passed to
`fetch` only as the strings "yes" (when true) or "no" (when false or
omitted): `get_current_weather` passes `fetch` exactly q and aqi as a
yes/no string, `get_weather_forecast` (for accepted `days`) passes
exactly q, days, and aqi and alerts as yes/no strings, no parameter
value on the wire is ever a boolean, and in particular
`get_current_weather` on "Paris" with air quality requested calls
`fetch` with endpoint `current.json` and params q="Paris", aqi="yes". -/
theorem bool_flags_sent_as_strings (apiKey : Option String) (net : Net)
    (q : String) (days : Int) (iaq ial : Bool) (hq : q ≠ "") :
    get_current_weather apiKey net q iaq =
      (fetch apiKey net "current.json"
        [("q", .s q), ("aqi", .s (if iaq then "yes" else "no"))]).toTool ∧
    get_current_weather apiKey net "Paris" true =
      (fetch apiKey net "current.json"
        [("q", .s "Paris"), ("aqi", .s "yes")]).toTool ∧
    (1 ≤ days → days ≤ 3 →
      get_weather_forecast apiKey net q days iaq ial =
        (fetch apiKey net "forecast.json"
          [("q", .s q), ("days", .i days),
           ("aqi", .s (if iaq then "yes" else "no")),
           ("alerts", .s (if ial then "yes" else "no"))]).toTool) ∧
    (∀ c ∈ (get_current_weather apiKey net q iaq).calls,
      ∀ kv ∈ c.params, kv.2.isBool = false) ∧
    (∀ c ∈ (get_weather_forecast apiKey net q days iaq ial).calls,
      ∀ kv ∈ c.params, kv.2.isBool = false) := by
  have h1 : get_current_weather apiKey net q iaq =
      (fetch apiKey net "current.json"
        [("q", .s q), ("aqi", .s (if iaq then "yes" else "no"))]).toTool := by
    simp [get_current_weather, hq]
  refine ⟨h1, ?_, ?_, ?_, ?_⟩
  · simp [get_current_weather]
  · intro hd1 hd3
    have hno : ¬(days < 1 ∨ days > 3) := by omega
    simp [get_weather_forecast, hq, hno]
  · rw [h1]
    exact fetch_calls_no_bool apiKey net "current.json" _
      (by intro kv hkv
          simp only [List.mem_cons, List.not_mem_nil, or_false] at hkv
          rcases hkv with rfl | rfl <;> rfl)
  · by_cases hd : days < 1 ∨ days > 3
    · simp [get_weather_forecast, hq, hd]
    · have h2 : get_weather_forecast apiKey net q days iaq ial =
          (fetch apiKey net "forecast.json"
            [("q", .s q), ("days", .i days),
             ("aqi", .s (if iaq then "yes" else "no")),
             ("alerts", .s (if ial then "yes" else "no"))]).toTool := by
        simp [get_weather_forecast, hq, hd]
      rw [h2]
      exact fetch_calls_no_bool apiKey net "forecast.json" _
        (by intro kv hkv
            simp only [List.mem_cons, List.not_mem_nil, or_false] at hkv
            rcases hkv with rfl | rfl | rfl | rfl <;> rfl)

/-- Witness for C3: the Paris scenario with the air-quality flag set,
and a 2-day forecast for "Paris" with air quality on and alerts off
passing aqi="yes" and alerts="no" to `fetch`. -/
theorem bool_flags_sent_as_strings_witness :
    get_current_weather (some "KEY") demoNet "Paris" true =
      (fetch (some "KEY") demoNet "current.json"
        [("q", .s "Paris"), ("aqi", .s "yes")]).toTool ∧
    get_weather_forecast (some "KEY") demoNet "Paris" 2 true false =
      (fetch (some "KEY") demoNet "forecast.json"
        [("q", .s "Paris"), ("days", .i 2),
         ("aqi", .s "yes"), ("alerts", .s "no")]).toTool :=
  ⟨(bool_flags_sent_as_strings (some "KEY") demoNet "Paris" 2 true false
      (by decide)).2.1,
   (bool_flags_sent_as_strings (some "KEY") demoNet "Paris" 2 true false
      (by decide)).2.2.1 (by decide) (by decide)⟩

/-- Claim C5: when the configured API key is absent (unset or empty),
`fetch` fails with the configuration error and no network call is
issued, and each of the three tools with otherwise valid arguments
surfaces that same configuration error with no call. -/
theorem missing_key_fails_before_io (apiKey : Option String) (net : Net)
    (endpoint : String) (params : List (String × PValue)) (q : String)
    (days : Int) (iaq ial : Bool)
    (hkey : apiKey = none ∨ apiKey = some "") (hq : q ≠ "")
    (h1 : 1 ≤ days) (h3 : days ≤ 3) :
    fetch apiKey net endpoint params =
      ⟨.error "Weather API key not set.", [], params⟩ ∧
    get_current_weather apiKey net q iaq =
      ⟨.error "Weather API key not set.", []⟩ ∧
    get_weather_forecast apiKey net q days iaq ial =
      ⟨.error "Weather API key not set.", []⟩ ∧
    search_locations apiKey net q =
      ⟨.error "Weather API key not set.", []⟩ := by
  have hd : ¬(days < 1 ∨ days > 3) := by omega
  refine ⟨?_, ?_, ?_, ?_⟩ <;>
    rcases hkey with rfl | rfl <;>
      simp [fetch, get_current_weather, get_weather_forecast,
        search_locations, FetchOut.toTool, hq, hd]

/-- Witness for C5: with no key configured, a current-conditions lookup
fails with the configuration error and no call. -/
theorem missing_key_fails_before_io_witness :
    get_current_weather none demoNet "Paris" false =
      ⟨.error "Weather API key not set.", []⟩ :=
  (missing_key_fails_before_io none demoNet "current.json"
    [("q", .s "Paris")] "Paris" 1 false false (Or.inl rfl) (by decide)
    (by decide) (by decide)).2.1

/-- Claim C6: for a non-empty query, `search_locations` issues exactly
the `search.json` fetch with q set to the query and wraps the fetched
value, otherwise unchanged, under the single key `items`. -/
theorem search_wraps_under_items (apiKey : Option String) (net : Net)
    (q : String) (hq : q ≠ "") :
    (search_locations apiKey net q).calls =
      (fetch apiKey net "search.json" [("q", .s q)]).calls ∧
    (search_locations apiKey net q).result =
      (fetch apiKey net "search.json" [("q", .s q)]).result.map
        (fun v => Json.obj [("items", v)]) := by
  unfold search_locations
  rw [if_neg hq]
  cases h : (fetch apiKey net "search.json" [("q", .s q)]).result <;>
    simp [h, Except.map]

/-- Witness for C6: searching "Paris" against the sample network wraps
the fetched object under `items`. -/
theorem search_wraps_under_items_witness :
    (search_locations (some "KEY") demoNet "Paris").result =
      (fetch (some "KEY") demoNet "search.json"
        [("q", .s "Paris")]).result.map
        (fun v => Json.obj [("items", v)]) :=
  (search_wraps_under_items (some "KEY") demoNet "Paris" (by decide)).2

/-- Claim C4: a 403 response whose JSON body carries
`error.message = "Invalid key"` makes `fetch` fail with a message
containing "Invalid key", and a 403 whose parsed body carries no error
detail yields a failure message built from the raw response text. -/
theorem upstream_error_detail (k : String) (net netRaw : Net)
    (endpoint : String) (params : List (String × PValue))
    (text rawText : String) (hk : k ≠ "")
    (h403 : net (baseUrl ++ endpoint) (dictSet params "key" (.s k)) =
      .response 403
        (some (Json.obj
          [("error", Json.obj [("message", Json.str "Invalid key")])]))
        text)
    (hraw : netRaw (baseUrl ++ endpoint) (dictSet params "key" (.s k)) =
      .response 403 (some (Json.obj [])) rawText) :
    (∃ pre post,
      (fetch (some k) net endpoint params).result =
        .error (pre ++ "Invalid key" ++ post)) ∧
    (fetch (some k) netRaw endpoint params).result =
      .error ("Unexpected error: WeatherAPI error: " ++ rawText) := by
  constructor
  · refine ⟨"Unexpected error: WeatherAPI error: ", "", ?_⟩
    simp [fetch, hk, h403, errorDetail, Json.isTruthy, Json.render]
  · simp [fetch, hk, hraw, errorDetail, Json.isTruthy]

/-- Witness for C4 on the sample 403 networks. -/
theorem upstream_error_detail_witness :
    (fetch (some "KEY") net403NoDetail "current.json"
      [("q", .s "Paris")]).result =
      .error ("Unexpected error: WeatherAPI error: " ++ "raw text") :=
  (upstream_error_detail "KEY" net403 net403NoDetail "current.json"
    [("q", .s "Paris")] "body403" "raw text" (by decide) rfl rfl).2

/-- Claim C8: a transport-layer failure makes `fetch` fail with a
message wrapping the underlying cause under the "Request error: "
prefix, and that message differs from every message produced for an
upstream non-200 response. -/
theorem transport_error_distinct (k : String) (net : Net)
    (endpoint : String) (params : List (String × PValue)) (cause : String)
    (hk : k ≠ "")
    (hnet : net (baseUrl ++ endpoint) (dictSet params "key" (.s k)) =
      .requestError cause) :
    (fetch (some k) net endpoint params).result =
      .error ("Request error: " ++ cause) ∧
    ∀ detail, "Request error: " ++ cause ≠
      "Unexpected error: WeatherAPI error: " ++ detail := by
  constructor
  · simp [fetch, hk, hnet]
  · intro detail
    apply string_ne_of_head
    have hR : ("Request error: " ++ cause).data.head? = some 'R' := rfl
    have hU : ("Unexpected error: WeatherAPI error: " ++ detail).data.head? =
        some 'U' := rfl
    rw [hR, hU]
    decide

/-- Witness for C8 on the sample timing-out network. -/
theorem transport_error_distinct_witness :
    (fetch (some "KEY") netTimeout "current.json"
      [("q", .s "Paris")]).result =
      .error ("Request error: " ++ "timed out") :=
  (transport_error_distinct "KEY" netTimeout "current.json"
    [("q", .s "Paris")] "timed out" (by decide) rfl).1

/-- Claim C9: with a key configured, `fetch` issues its single GET with
exactly the caller's parameter mapping updated with the API key under
"key"; the caller's mapping after the call is that updated mapping, in
which the lookup of every key other than "key" is unchanged. -/
theorem fetch_appends_key (k : String) (net : Net) (endpoint : String)
    (params : List (String × PValue)) (hk : k ≠ "") :
    (fetch (some k) net endpoint params).calls =
      [⟨baseUrl ++ endpoint, dictSet params "key" (.s k)⟩] ∧
    (fetch (some k) net endpoint params).paramsAfter =
      dictSet params "key" (.s k) ∧
    getParam (dictSet params "key" (.s k)) "key" = some (.s k) ∧
    ∀ k2, k2 ≠ "key" →
      getParam (dictSet params "key" (.s k)) k2 = getParam params k2 := by
  refine ⟨?_, ?_, dictSet_getParam_self params "key" (.s k), ?_⟩
  · simp [fetch, hk]
  · simp [fetch, hk]
  · intro k2 h2
    exact dictSet_getParam_ne params "key" (.s k) k2 h2

/-- Witness for C9: the search call carries q unchanged plus the
injected key. -/
theorem fetch_appends_key_witness :
    (fetch (some "KEY") demoNet "search.json"
      [("q", .s "Paris")]).calls =
      [⟨baseUrl ++ "search.json",
        dictSet [("q", .s "Paris")] "key" (.s "KEY")⟩] :=
  (fetch_appends_key "KEY" demoNet "search.json" [("q", .s "Paris")]
    (by decide)).1

/-- Claim C10: a 200 response whose body does not parse as JSON makes
`fetch` return Python None (`Json.null`) rather than fail, and a 200
response with a parsed JSON body returns that value unchanged. -/
theorem fetch_200_returns_body (k : String) (net netOk : Net)
    (endpoint : String) (params : List (String × PValue))
    (text text2 : String) (j : Json) (hk : k ≠ "")
    (hbad : net (baseUrl ++ endpoint) (dictSet params "key" (.s k)) =
      .response 200 none text)
    (hgood : netOk (baseUrl ++ endpoint) (dictSet params "key" (.s k)) =
      .response 200 (some j) text2) :
    (fetch (some k) net endpoint params).result = .ok Json.null ∧
    (fetch (some k) netOk endpoint params).result = .ok j := by
  constructor
  · simp [fetch, hk, hbad]
  · simp [fetch, hk, hgood]

/-- Witness for C10 on the sample 200 networks. -/
theorem fetch_200_returns_body_witness :
    (fetch (some "KEY") netBadBody "current.json"
      [("q", .s "Paris")]).result = .ok Json.null ∧
    (fetch (some "KEY") netArr "search.json"
      [("q", .s "Paris")]).result = .ok (Json.arr []) := by
  constructor
  · exact (fetch_200_returns_body "KEY" netBadBody netArr "current.json"
      [("q", .s "Paris")] "not json" "[]" (Json.arr []) (by decide)
      rfl rfl).1
  · exact (fetch_200_returns_body "KEY" netBadBody netArr "search.json"
      [("q", .s "Paris")] "not json" "[]" (Json.arr []) (by decide)
      rfl rfl).2

end McpServer
